import Mathlib

/-!
Shallow embedding of `src/buju.py` (the BuJu bullet-journal application).

Conventions used throughout:

* Text (file contents, widget contents, single lines) is modelled as `List Char`.
* The Tk text widget keeps an automatic trailing newline that cannot be removed;
  `get("1.0", tk.END)` therefore returns the widget's logical content followed by
  one extra `'\n'`, `insert(tk.END, s)` appends `s` to the logical content (the
  insertion happens before the automatic final newline), and `insert("1.0", s)`
  prepends `s`.  The widget state is modelled as its logical content.
* Fallible Python operations are embedded in `Except PyExc`; an exception that the
  Python code does not catch shows up as an `Except.error` result of the embedded
  function.
* Python `json.load` results are modelled by the inductive `Json`; `dict.get` on a
  non-dict value raises `AttributeError`, which `jsonGet` reflects.
* Python whitespace stripping (`str.strip()`) is modelled with the ASCII whitespace
  characters; every proof below is parametric in the exact whitespace set except
  for the facts that the glyph characters themselves are not whitespace.
-/

abbrev Text := List Char

/-- Tk: `text_widget.get("1.0", tk.END)` — the widget content plus the automatic
trailing newline (used by `save_log`, line 283). -/
def tkGetAll (w : Text) : Text := w ++ ['\n']

/-- Tk: `text_widget.insert(tk.END, s)` — append before the automatic final
newline (used by `add_item`, line 251). -/
def tkInsertEnd (w s : Text) : Text := w ++ s

/-- Tk: `text_widget.insert("1.0", s)` — prepend (used by `load_log`, line 293). -/
def tkInsertStart (w s : Text) : Text := s ++ w

/-- Python exceptions relevant to the embedded code paths. -/
inductive PyExc where
  | attributeError
  | osError
  | typeError
deriving DecidableEq

/-! ## Constants (buju.py lines 15–28) -/

def TASK : Char := '•'
def NOTE : Char := '–'
def EVENT : Char := 'o'
def COMPLETED : Char := 'X'

structure Palette where
  BG : String
  FG : String
  ACCENT : String
  TEXT_BG : String
deriving DecidableEq

/-- The `THEMES` table (lines 15–20), as an association list. -/
def THEMES : List (String × Palette) :=
  [("Light", ⟨"#fdfdfd", "#2c3e50", "#3498db", "#ffffff"⟩),
   ("Dark", ⟨"#1f2933", "#e5e7eb", "#10b981", "#111827"⟩),
   ("Solarized", ⟨"#fdf6e3", "#586e75", "#b58900", "#fffdf5"⟩),
   ("Forest", ⟨"#0b3d2e", "#e6f4ea", "#2ecc71", "#052e22"⟩)]

def DEFAULT_THEME_NAME : String := "Light"

/-! ## JSON model -/

/-- Values produced by Python's `json.load`.  `float` carries no payload: no code
path in buju.py inspects a float's value (a float always fails the
`isinstance(·, int)` and `isinstance(·, bool)` checks). -/
inductive Json where
  | null
  | bool (b : Bool)
  | int (n : Int)
  | float
  | str (s : String)
  | arr (elems : List Json)
  | obj (entries : List (String × Json))

/-- Python `data.get(k)`: succeeds only when `data` is a dict, otherwise raises
`AttributeError` (lists, strings, numbers, booleans and `None` have no `.get`). -/
def jsonGet (j : Json) (k : String) : Except PyExc (Option Json) :=
  match j with
  | Json.obj kvs => Except.ok (kvs.lookup k)
  | _ => Except.error PyExc.attributeError

/-- Python `dict.update`: keys of `upd` override keys of `base`.  Modelled so
that `List.lookup` finds `upd` entries first. -/
def dictUpdate (base upd : List (String × Json)) : List (String × Json) :=
  upd ++ base

/-! ## Settings store (lines 36–39, 181–197) -/

/-- What the settings file can present to `load_settings`: absent
(`FileNotFoundError`), unreadable (`OSError`), unparsable
(`json.JSONDecodeError`), or a parsed JSON document. -/
inductive SettingsFile where
  | missing
  | ioError
  | badJson
  | json (doc : Json)

/-- The theme/settings state of the application object: `self.theme_name`,
`self.colors`, `self._settings`. -/
structure SettingsState where
  theme_name : String
  colors : Palette
  settings : List (String × Json)

/-- Lines 36–39: `theme_name = DEFAULT_THEME_NAME`, `colors = THEMES[name].copy()`,
`_settings = {"theme_name": theme_name}`.  The `getD` fallback is unreachable
because the default theme name is a key of `THEMES` (Python would raise
`KeyError` in the same situation). -/
def initialSettingsState : SettingsState :=
  ⟨DEFAULT_THEME_NAME,
   (THEMES.lookup DEFAULT_THEME_NAME).getD ⟨"", "", "", ""⟩,
   [("theme_name", Json.str DEFAULT_THEME_NAME)]⟩

/-- Lines 189–192: `saved_theme = data.get("theme_name")`; if it is a key of
`THEMES`, set `self.theme_name` and `self.colors`.  Python `saved_theme in
THEMES` hashes `saved_theme`, so an unhashable value — a JSON array (Python
list) or object (Python dict) — raises `TypeError`; hashable values (`None`,
booleans, numbers, strings) are simply compared against the keys, so only a
string equal to a key matches. -/
def applySavedTheme (saved_theme : Option Json) (st : SettingsState) :
    Except PyExc SettingsState :=
  match saved_theme with
  | some (Json.arr _) => Except.error PyExc.typeError
  | some (Json.obj _) => Except.error PyExc.typeError
  | some (Json.str s) =>
    match THEMES.lookup s with
    | some pal => Except.ok ⟨s, pal, st.settings⟩
    | none => Except.ok st
  | _ => Except.ok st

/-- Lines 193–194: `if isinstance(data, dict): self._settings.update(data)`. -/
def mergeSettingsDict (data : Json) (st : SettingsState) : SettingsState :=
  match data with
  | Json.obj kvs => ⟨st.theme_name, st.colors, dictUpdate st.settings kvs⟩
  | _ => st

/-- Lines 185–197, `BuJoApp.load_settings`.  The `except` clause catches exactly
`FileNotFoundError`, `json.JSONDecodeError` and `OSError`; the `AttributeError`
raised by `data.get` on a non-dict document and the `TypeError` raised by
`saved_theme in THEMES` on an unhashable value are not caught and propagate. -/
def load_settings (file : SettingsFile) (st : SettingsState) :
    Except PyExc SettingsState :=
  match file with
  | SettingsFile.missing => Except.ok st
  | SettingsFile.ioError => Except.ok st
  | SettingsFile.badJson => Except.ok st
  | SettingsFile.json data =>
    match jsonGet data "theme_name" with
    | Except.error e => Except.error e
    | Except.ok saved_theme =>
      match applySavedTheme saved_theme st with
      | Except.error e => Except.error e
      | Except.ok st1 => Except.ok (mergeSettingsDict data st1)

/-- Line 42: `saved_window = self._settings.get("window", {})`. -/
def savedWindow (st : SettingsState) : Json :=
  (st.settings.lookup "window").getD (Json.obj [])

/-! ## Window restore (lines 42–67) -/

/-- Python `isinstance(x, int)` — note that `bool` is a subclass of `int`. -/
def pyIsInt : Option Json → Bool
  | some (Json.int _) => true
  | some (Json.bool _) => true
  | _ => false

/-- The integer value of a Python `int` (with `True == 1`, `False == 0`); only
used on values for which `pyIsInt` holds. -/
def pyToInt : Option Json → Int
  | some (Json.int n) => n
  | some (Json.bool b) => if b then 1 else 0
  | _ => 0

/-- Python `isinstance(x, bool) and x` with `.get(k, False)` defaulting. -/
def pyBoolTrue : Option Json → Bool
  | some (Json.bool b) => b
  | _ => false

/-- The observable window-configuration calls made during restore. -/
inductive WAction where
  | geometry (w h : Int) (pos : Option (Int × Int))
  | fullscreen
  | zoomed
deriving DecidableEq

/-- Lines 50–54: the geometry call, guarded by
`isinstance(width, int) and isinstance(height, int) and width > 200 and height > 200`,
with the position appended when `x` and `y` are both ints. -/
def geom_actions (wvs : List (String × Json)) : List WAction :=
  if pyIsInt (wvs.lookup "width") && pyIsInt (wvs.lookup "height")
      && decide (200 < pyToInt (wvs.lookup "width"))
      && decide (200 < pyToInt (wvs.lookup "height")) then
    if pyIsInt (wvs.lookup "x") && pyIsInt (wvs.lookup "y") then
      [WAction.geometry (pyToInt (wvs.lookup "width")) (pyToInt (wvs.lookup "height"))
        (some (pyToInt (wvs.lookup "x"), pyToInt (wvs.lookup "y")))]
    else
      [WAction.geometry (pyToInt (wvs.lookup "width")) (pyToInt (wvs.lookup "height")) none]
  else []

/-- Lines 55–65: `if isinstance(fullscreen, bool) and fullscreen: ... elif
isinstance(zoomed, bool) and zoomed: ...`, applied after the geometry. -/
def state_actions (wvs : List (String × Json)) : List WAction :=
  if pyBoolTrue (wvs.lookup "fullscreen") then [WAction.fullscreen]
  else if pyBoolTrue (wvs.lookup "zoomed") then [WAction.zoomed]
  else []

/-- Lines 42–65 as a whole: reading the `width`/`height`/`x`/`y`/`fullscreen`/
`zoomed` fields of `saved_window` via `.get` raises `AttributeError` when
`saved_window` is not a dict (the surrounding `try` only catches `tk.TclError`);
otherwise the geometry actions happen first and the fullscreen/zoomed action
last. -/
def restore_window (win : Json) : Except PyExc (List WAction) :=
  match win with
  | Json.obj wvs => Except.ok (geom_actions wvs ++ state_actions wvs)
  | _ => Except.error PyExc.attributeError

/-! ## Theme switching (lines 157–163) -/

inductive ThemeEffect where
  | applyTheme
  | saveSettings
deriving DecidableEq

/-- Lines 157–163, `BuJoApp.set_theme`: unknown names return immediately; known
names update `theme_name`/`colors`, re-theme the UI and write the settings. -/
def set_theme (st : String × Palette) (name : String) :
    (String × Palette) × List ThemeEffect :=
  match THEMES.lookup name with
  | none => (st, [])
  | some pal => ((name, pal), [ThemeEffect.applyTheme, ThemeEffect.saveSettings])

/-! ## Log store (lines 281–301) -/

/-- The state of today's log file as seen by `load_log`. -/
inductive FileState where
  | absent
  | unreadable
  | content (s : Text)

/-- Lines 288–294, `BuJoApp.load_log`: `os.path.exists`, then `open`/`read` with
no exception handling — a read failure on an existing file propagates. -/
def load_log (fs : FileState) (widget : Text) : Except PyExc Text :=
  match fs with
  | FileState.absent => Except.ok widget
  | FileState.unreadable => Except.error PyExc.osError
  | FileState.content s => Except.ok (tkInsertStart widget s)

/-- Lines 281–286, `BuJoApp.save_log`: writes `text_widget.get("1.0", tk.END)`
with no exception handling; on success the result is the file content written. -/
def save_log (widget : Text) (writeFails : Bool) : Except PyExc Text :=
  if writeFails then Except.error PyExc.osError
  else Except.ok (tkGetAll widget)

/-- Lines 199–218, `BuJoApp.save_settings`: the whole body is wrapped in
`try ... except OSError: pass`, so a write failure is swallowed. -/
def save_settings (writeFails : Bool) : Except PyExc Unit :=
  let attempt : Except PyExc Unit :=
    if writeFails then Except.error PyExc.osError else Except.ok ()
  match attempt with
  | Except.error _ => Except.ok ()
  | Except.ok _ => Except.ok ()

/-- Lines 296–301, `BuJoApp.on_closing`: `save_settings()`, then `save_log()`,
then `root.destroy()`.  The result carries the log content written and `true`
for the `destroy` call having been reached; an uncaught exception aborts the
handler early. -/
def on_closing (widget : Text) (settingsWriteFails logWriteFails : Bool) :
    Except PyExc (Text × Bool) :=
  match save_settings settingsWriteFails with
  | Except.error e => Except.error e
  | Except.ok _ =>
    match save_log widget logWriteFails with
    | Except.error e => Except.error e
    | Except.ok written => Except.ok (written, true)

/-! ## Adding items (lines 247–253, 107–109) -/

inductive Kind where
  | task
  | note
  | event

/-- The button wiring of lines 107–109: Task → `TASK`, Note → `NOTE`,
Event → `EVENT`. -/
def glyph : Kind → Char
  | Kind.task => TASK
  | Kind.note => NOTE
  | Kind.event => EVENT

/-- Lines 247–253, `BuJoApp.add_item`: `response` is the `simpledialog.askstring`
result (`none` = cancelled).  `if item_text:` is false for `None` and for the
empty string; otherwise `f"  |pfx|  |text|\n"` is inserted at `tk.END`. -/
def add_item (widget : Text) (pfx : Char) (response : Option Text) : Text :=
  match response with
  | none => widget
  | some t =>
    if t = [] then widget
    else tkInsertEnd widget (' ' :: ' ' :: pfx :: ' ' :: ' ' :: (t ++ ['\n']))

/-! ## Toggling tasks (lines 255–279) -/

/-- Python `str.strip()`'s whitespace set, restricted to ASCII (space, tab,
newline, carriage return, vertical tab, form feed). -/
def isPyWhite (c : Char) : Bool :=
  c == ' ' || c == '\t' || c == '\n' || c == '\r' || c == '\x0b' || c == '\x0c'

/-- Python `str.lstrip()`. -/
def pyLStrip (l : Text) : Text := l.dropWhile isPyWhite

/-- Python `str.strip()`: strip whitespace from both ends. -/
def pyStrip (l : Text) : Text :=
  ((pyLStrip l).reverse.dropWhile isPyWhite).reverse

/-- Python `s.startswith(pat)`. -/
def pyStartswith (pat l : Text) : Bool := pat.isPrefixOf l

/-- Python `s.replace(a, b, 1)` for single-character `a`, `b`: replace the first
occurrence only. -/
def pyReplace1 (a b : Char) : Text → Text
  | [] => []
  | c :: rest => if c == a then b :: rest else c :: pyReplace1 a b rest

/-- Lines 266–272 of `toggle_task_state`, acting on one line (the line text
between `line_start` and `line_end`, which contains no newline). -/
def toggle_line (line : Text) : Text :=
  if pyStartswith [TASK] (pyStrip line) = true then pyReplace1 TASK COMPLETED line
  else if pyStartswith [COMPLETED] (pyStrip line) = true then pyReplace1 COMPLETED TASK line
  else line

/-- Lines 255–279, `BuJoApp.toggle_task_state`, on the buffer viewed as an
ordered sequence of lines: the cursor line is replaced in place (delete +
insert of `new_text`); any other line is untouched; a line that starts with
neither glyph (after strip) causes an early return. An out-of-range index
corresponds to the `tk.TclError` branch, which is caught and ignored. -/
def toggle_task_state (buf : List Text) (i : Nat) : List Text :=
  match buf[i]? with
  | none => buf
  | some line =>
    if pyStartswith [TASK] (pyStrip line) = true then
      buf.set i (pyReplace1 TASK COMPLETED line)
    else if pyStartswith [COMPLETED] (pyStrip line) = true then
      buf.set i (pyReplace1 COMPLETED TASK line)
    else buf

/-- Spec-side predicate for C7: the JSON value is an integer strictly greater
than 200 (the "sane bounds" validation of the spec, §4.2). -/
def isIntGreater200 : Option Json → Bool
  | some (Json.int n) => decide (200 < n)
  | _ => false

/-- Spec-side predicate for C7: the JSON value is a boolean. -/
def isBoolJson : Option Json → Bool
  | some (Json.bool _) => true
  | _ => false

/-- A `WAction` that sets the window geometry. -/
def isGeomAct : WAction → Bool
  | WAction.geometry _ _ _ => true
  | _ => false

/-- A `WAction` that sets the fullscreen/zoomed state. -/
def isStateAct : WAction → Bool
  | WAction.fullscreen => true
  | WAction.zoomed => true
  | _ => false

/-- Sample log-file content for the persistence claims:
`"  •  Call dentist\n"` from the spec's same-day-restart scenario. -/
def demoLog : Text :=
  ' ' :: ' ' :: '•' :: ' ' :: ' ' :: 'C' :: 'a' :: 'l' :: 'l' :: ['\n']

/-- Sample `window` object with an out-of-bounds width and non-boolean flags. -/
def demoWindowDoc : List (String × Json) :=
  [("width", Json.int 50), ("height", Json.int 500),
   ("fullscreen", Json.int 1), ("zoomed", Json.str "yes")]

/-- Sample settings document with an unrecognized theme name and the window
object above. -/
def demoSettingsDoc : List (String × Json) :=
  [("theme_name", Json.str "Nonexistent"), ("window", Json.obj demoWindowDoc)]

/-- The settings state produced by loading `demoSettingsDoc`. -/
def demoLoadedState : SettingsState :=
  ⟨DEFAULT_THEME_NAME,
   (THEMES.lookup DEFAULT_THEME_NAME).getD ⟨"", "", "", ""⟩,
   dictUpdate initialSettingsState.settings demoSettingsDoc⟩

/-- Sample `window` object with a valid geometry and `fullscreen: true`. -/
def demoFsWindowDoc : List (String × Json) :=
  [("width", Json.int 800), ("height", Json.int 600), ("x", Json.int 10),
   ("y", Json.int 20), ("fullscreen", Json.bool true)]

/-! ## Helper lemmas about the Python string primitives -/

theorem dropWhile_append_singleton {p : Char → Bool} (l : List Char) (c : Char)
    (hc : p c = false) :
    List.dropWhile p (l ++ [c]) = List.dropWhile p l ++ [c] := by
  induction l with
  | nil => simp [List.dropWhile_cons, hc]
  | cons a l ih =>
    cases ha : p a with
    | true => simp [List.dropWhile_cons, ha, ih]
    | false => simp [List.dropWhile_cons, ha]

theorem dropWhile_head_not {p : Char → Bool} (l t : List Char) (c : Char)
    (h : List.dropWhile p l = c :: t) : p c = false := by
  induction l with
  | nil => simp [List.dropWhile] at h
  | cons a l ih =>
    rw [List.dropWhile_cons] at h
    split at h
    · exact ih h
    · next ha =>
      injection h with h1 _
      subst h1
      simpa using ha

/-- One non-whitespace character after leading whitespace pins down the head of
`pyStrip`. -/
theorem pyStrip_decompose (w r : List Char) (g : Char)
    (hw : ∀ c ∈ w, isPyWhite c = true) (hg : isPyWhite g = false) :
    pyStrip (w ++ g :: r) = g :: (List.dropWhile isPyWhite r.reverse).reverse := by
  unfold pyStrip pyLStrip
  rw [List.dropWhile_append_of_pos hw,
      List.dropWhile_cons, if_neg (by simp [hg]), List.reverse_cons,
      dropWhile_append_singleton _ _ hg]
  simp

theorem startswith_single (g : Char) (l : List Char) :
    pyStartswith [g] l = true ↔ l.head? = some g := by
  cases l with
  | nil => simp [pyStartswith, List.isPrefixOf]
  | cons a t =>
    rw [pyStartswith, List.isPrefixOf_cons₂, List.isPrefixOf_nil_left, Bool.and_true,
        beq_iff_eq, List.head?_cons, Option.some.injEq]
    exact eq_comm

/-- Characterization of `line.strip().startswith(g)` for a single
non-whitespace character `g`. -/
theorem strip_starts_iff (g : Char) (l : List Char) (hg : isPyWhite g = false) :
    pyStartswith [g] (pyStrip l) = true ↔
      ∃ w r, l = w ++ g :: r ∧ ∀ c ∈ w, isPyWhite c = true := by
  constructor
  · intro h
    cases hd : List.dropWhile isPyWhite l with
    | nil =>
      exfalso
      rw [startswith_single] at h
      have hl : pyStrip l = [] := by
        unfold pyStrip pyLStrip
        rw [hd]
        simp [List.dropWhile]
      rw [hl] at h
      simp at h
    | cons c t =>
      have hc : isPyWhite c = false := dropWhile_head_not l t c hd
      have hsplit : l.takeWhile isPyWhite ++ c :: t = l := by
        rw [← hd]; exact List.takeWhile_append_dropWhile _ _
      have hwmem : ∀ x ∈ l.takeWhile isPyWhite, isPyWhite x = true :=
        fun x hx => List.mem_takeWhile_imp hx
      have hstrip := pyStrip_decompose (l.takeWhile isPyWhite) t c hwmem hc
      rw [hsplit] at hstrip
      rw [startswith_single, hstrip] at h
      simp at h
      subst h
      exact ⟨l.takeWhile isPyWhite, t, hsplit.symm, hwmem⟩
  · rintro ⟨w, r, rfl, hw⟩
    rw [startswith_single, pyStrip_decompose w r g hw hg]
    rfl

/-- A whitespace character is never equal to a non-whitespace character. -/
theorem white_beq_false {c g : Char} (hc : isPyWhite c = true)
    (hg : isPyWhite g = false) : (c == g) = false := by
  rw [beq_eq_false_iff_ne]
  intro e
  subst e
  rw [hc] at hg
  cases hg

/-- `s.replace(a, b, 1)` on a string whose prefix avoids `a`. -/
theorem pyReplace1_append (a b : Char) (w r : List Char)
    (hw : ∀ c ∈ w, (c == a) = false) :
    pyReplace1 a b (w ++ a :: r) = w ++ b :: r := by
  induction w with
  | nil => simp [pyReplace1]
  | cons c w ih =>
    have hc := hw c (List.mem_cons_self c w)
    simp only [List.cons_append, pyReplace1, hc, Bool.false_eq_true, if_false]
    exact congrArg (List.cons c) (ih fun x hx => hw x (List.mem_cons_of_mem c hx))

/-- `s.replace(a, b, 1)` rewrites exactly the first occurrence of `a`. -/
theorem pyReplace1_eq_takeWhile (a b : Char) (l : List Char) (h : a ∈ l) :
    pyReplace1 a b l =
      l.takeWhile (fun c => c != a) ++ b :: (l.dropWhile (fun c => c != a)).tail := by
  induction l with
  | nil => cases h
  | cons c l ih =>
    cases hc : c == a with
    | true =>
      have hca : c = a := by simpa using hc
      subst hca
      simp [pyReplace1, List.takeWhile_cons, List.dropWhile_cons, hc]
    | false =>
      have hca : c ≠ a := by simpa using hc
      have hmem : a ∈ l := by
        rcases List.mem_cons.mp h with h1 | h2
        · exact absurd h1.symm hca
        · exact h2
      simp [pyReplace1, List.takeWhile_cons, List.dropWhile_cons, hc, hca, ih hmem]

/-! ## Claim theorems -/

/-- Claim C1 (refuted; the code deviates from the stated round-trip policy):
loading today's file puts exactly the prior content into the widget, but
`save_log` writes `text_widget.get("1.0", tk.END)`, which carries the Tk text
widget's automatic trailing newline.  Hence `save(load())` writes the old
content plus one extra `'\n'` and is not a fixed point. -/
theorem log_roundtrip_gains_newline :
    load_log (FileState.content demoLog) [] = Except.ok demoLog ∧
    save_log demoLog false = Except.ok (demoLog ++ ['\n']) ∧
    demoLog ++ ['\n'] ≠ demoLog :=
  ⟨rfl, rfl, by decide⟩

/-- Claim C2 (refuted; `save_log` has no exception handling): a write failure in
`save_log` propagates out of `on_closing`, so `root.destroy()` is never reached
and closing the window does not complete — in contrast to `save_settings`,
whose failures are swallowed. -/
theorem on_closing_propagates_write_error :
    on_closing ['a'] false true = Except.error PyExc.osError ∧
    save_settings true = Except.ok () :=
  ⟨rfl, rfl⟩

/-- Claim C3 (refuted for JSON documents whose top level is not an object):
`load_settings` catches `FileNotFoundError`, `json.JSONDecodeError` and
`OSError`, but a settings file containing valid JSON such as `[]` makes
`data.get("theme_name")` raise an uncaught `AttributeError`. -/
theorem load_settings_raises_on_nondict :
    load_settings (SettingsFile.json (Json.arr [])) initialSettingsState =
      Except.error PyExc.attributeError :=
  rfl

/-- Counterexample to claim C9 as stated: when today's file exists but reading
it fails (e.g. a permission error), `load_log` propagates the `OSError` — it is
not the case that load never raises for every file-system state. -/
theorem load_log_raises_on_unreadable :
    load_log FileState.unreadable [] = Except.error PyExc.osError :=
  rfl

/-- Claim C9, amended: `load_log` returns the full contents of today's file
when it exists and is readable, leaves the widget empty (and does not raise)
when the file is absent, and propagates the I/O error when the file exists but
cannot be read. -/
theorem load_log_amended (s w : Text) :
    load_log (FileState.content s) w = Except.ok (s ++ w) ∧
    load_log FileState.absent w = Except.ok w ∧
    load_log FileState.unreadable w = Except.error PyExc.osError :=
  ⟨rfl, rfl, rfl⟩

/-- Claim C6: for non-empty input text, `add_item` appends exactly
`"  <glyph>  <text>\n"` at the end of the buffer (glyph `•` for Task, `–` for
Note, `o` for Event), and a cancelled or empty input leaves the buffer
unchanged. -/
theorem add_item_appends (w t : Text) (k : Kind) (h : t ≠ []) :
    add_item w (glyph k) (some t) =
      w ++ (' ' :: ' ' :: glyph k :: ' ' :: ' ' :: (t ++ ['\n'])) ∧
    add_item w (glyph k) none = w ∧
    add_item w (glyph k) (some []) = w := by
  refine ⟨?_, rfl, rfl⟩
  simp [add_item, tkInsertEnd, h]

/-- Witness for C6 at the concrete input `"Buy"`. -/
theorem add_item_appends_witness :
    (['B', 'u', 'y'] : Text) ≠ [] ∧
      add_item [] (glyph Kind.task) (some ['B', 'u', 'y']) =
        ([] : Text) ++ (' ' :: ' ' :: glyph Kind.task :: ' ' :: ' ' :: (['B', 'u', 'y'] ++ ['\n'])) :=
  ⟨by decide, (add_item_appends [] ['B', 'u', 'y'] Kind.task (by decide)).1⟩

/-- Claim C10: `set_theme` with a name that is not a key of `THEMES` is a
complete no-op — theme name and colors unchanged, no re-theming, no settings
write. -/
theorem set_theme_unknown_noop (st : String × Palette) (name : String)
    (h : THEMES.lookup name = none) :
    set_theme st name = (st, []) := by
  simp [set_theme, h]

/-- Witness for C10 at the concrete name `"Nonexistent"`. -/
theorem set_theme_unknown_noop_witness :
    THEMES.lookup "Nonexistent" = none ∧
      set_theme (DEFAULT_THEME_NAME, initialSettingsState.colors) "Nonexistent" =
        ((DEFAULT_THEME_NAME, initialSettingsState.colors), []) :=
  ⟨by decide, set_theme_unknown_noop _ "Nonexistent" (by decide)⟩

/-- A stripped line headed by the non-whitespace character `g` does not start
with a different character `gtest`. -/
theorem strip_starts_other (g gtest : Char) (w r : List Char)
    (hw : ∀ c ∈ w, isPyWhite c = true) (hg : isPyWhite g = false)
    (hne : gtest ≠ g) :
    pyStartswith [gtest] (pyStrip (w ++ g :: r)) = false := by
  cases hb : pyStartswith [gtest] (pyStrip (w ++ g :: r)) with
  | false => rfl
  | true =>
    exfalso
    rw [startswith_single, pyStrip_decompose w r g hw hg] at hb
    simp at hb
    exact hne hb.symm

/-- Claim C4: for a line whose stripped content starts with the Task glyph `•`
or the CompletedTask glyph `X`, toggling twice restores the line exactly. -/
theorem toggle_twice_restores (line : Text)
    (h : pyStartswith [TASK] (pyStrip line) = true ∨
         pyStartswith [COMPLETED] (pyStrip line) = true) :
    toggle_line (toggle_line line) = line := by
  have hT : isPyWhite TASK = false := by decide
  have hC : isPyWhite COMPLETED = false := by decide
  cases h with
  | inl h1 =>
    obtain ⟨w, r, rfl, hw⟩ := (strip_starts_iff TASK _ hT).mp h1
    have hwT : ∀ c ∈ w, (c == TASK) = false := fun c hc => white_beq_false (hw c hc) hT
    have hwC : ∀ c ∈ w, (c == COMPLETED) = false :=
      fun c hc => white_beq_false (hw c hc) hC
    have e1 : toggle_line (w ++ TASK :: r) = w ++ COMPLETED :: r := by
      simp [toggle_line, h1, pyReplace1_append TASK COMPLETED w r hwT]
    have hm1 : pyStartswith [TASK] (pyStrip (w ++ COMPLETED :: r)) = false :=
      strip_starts_other COMPLETED TASK w r hw hC (by decide)
    have hm2 : pyStartswith [COMPLETED] (pyStrip (w ++ COMPLETED :: r)) = true :=
      (strip_starts_iff COMPLETED _ hC).mpr ⟨w, r, rfl, hw⟩
    have e2 : toggle_line (w ++ COMPLETED :: r) = w ++ TASK :: r := by
      simp [toggle_line, hm1, hm2, pyReplace1_append COMPLETED TASK w r hwC]
    rw [e1, e2]
  | inr h2 =>
    obtain ⟨w, r, rfl, hw⟩ := (strip_starts_iff COMPLETED _ hC).mp h2
    have hwT : ∀ c ∈ w, (c == TASK) = false := fun c hc => white_beq_false (hw c hc) hT
    have hwC : ∀ c ∈ w, (c == COMPLETED) = false :=
      fun c hc => white_beq_false (hw c hc) hC
    have hm1 : pyStartswith [TASK] (pyStrip (w ++ COMPLETED :: r)) = false :=
      strip_starts_other COMPLETED TASK w r hw hC (by decide)
    have e1 : toggle_line (w ++ COMPLETED :: r) = w ++ TASK :: r := by
      simp [toggle_line, hm1, h2, pyReplace1_append COMPLETED TASK w r hwC]
    have hb1 : pyStartswith [TASK] (pyStrip (w ++ TASK :: r)) = true :=
      (strip_starts_iff TASK _ hT).mpr ⟨w, r, rfl, hw⟩
    have e2 : toggle_line (w ++ TASK :: r) = w ++ COMPLETED :: r := by
      simp [toggle_line, hb1, pyReplace1_append TASK COMPLETED w r hwT]
    rw [e1, e2]

/-- Witness for C4 at the concrete line `"  •  a"`. -/
theorem toggle_twice_restores_witness :
    (pyStartswith [TASK] (pyStrip ([' ', ' ', '•', ' ', ' ', 'a'] : Text)) = true ∨
     pyStartswith [COMPLETED] (pyStrip ([' ', ' ', '•', ' ', ' ', 'a'] : Text)) = true) ∧
    toggle_line (toggle_line [' ', ' ', '•', ' ', ' ', 'a']) =
      [' ', ' ', '•', ' ', ' ', 'a'] :=
  ⟨by decide, toggle_twice_restores _ (by decide)⟩

/-- Claim C5: the toggle acts only on the indexed line, and there it replaces
exactly the first occurrence of the glyph (the prefix before that occurrence
and the suffix after it are unchanged); lines starting with anything else leave
the whole buffer unchanged. -/
theorem toggle_task_state_frame (buf : List Text) (i : Nat) (line : Text)
    (hline : buf[i]? = some line) :
    (pyStartswith [TASK] (pyStrip line) = true →
        toggle_task_state buf i =
          buf.set i (line.takeWhile (fun c => c != TASK) ++
            COMPLETED :: (line.dropWhile (fun c => c != TASK)).tail)) ∧
    (pyStartswith [COMPLETED] (pyStrip line) = true →
        toggle_task_state buf i =
          buf.set i (line.takeWhile (fun c => c != COMPLETED) ++
            TASK :: (line.dropWhile (fun c => c != COMPLETED)).tail)) ∧
    (pyStartswith [TASK] (pyStrip line) = false →
      pyStartswith [COMPLETED] (pyStrip line) = false →
        toggle_task_state buf i = buf) := by
  have hT : isPyWhite TASK = false := by decide
  have hC : isPyWhite COMPLETED = false := by decide
  refine ⟨?_, ?_, ?_⟩
  · intro h1
    obtain ⟨w, r, hlr, hw⟩ := (strip_starts_iff TASK _ hT).mp h1
    have hmem : TASK ∈ line := by rw [hlr]; simp
    have hrep := pyReplace1_eq_takeWhile TASK COMPLETED line hmem
    simp [toggle_task_state, hline, h1, hrep]
  · intro h2
    have h1 : pyStartswith [TASK] (pyStrip line) = false := by
      obtain ⟨w, r, hlr, hw⟩ := (strip_starts_iff COMPLETED _ hC).mp h2
      rw [hlr]
      exact strip_starts_other COMPLETED TASK w r hw hC (by decide)
    obtain ⟨w, r, hlr, hw⟩ := (strip_starts_iff COMPLETED _ hC).mp h2
    have hmem : COMPLETED ∈ line := by rw [hlr]; simp
    have hrep := pyReplace1_eq_takeWhile COMPLETED TASK line hmem
    simp [toggle_task_state, hline, h1, h2, hrep]
  · intro h1 h2
    simp [toggle_task_state, hline, h1, h2]

/-- Witness for C5 on the concrete two-line buffer `["  •  a", "n"]`. -/
theorem toggle_task_state_frame_witness :
    ([[' ', ' ', '•', ' ', ' ', 'a'], ['n']] : List Text)[0]? =
      some [' ', ' ', '•', ' ', ' ', 'a'] ∧
    pyStartswith [TASK] (pyStrip ([' ', ' ', '•', ' ', ' ', 'a'] : Text)) = true ∧
    toggle_task_state [[' ', ' ', '•', ' ', ' ', 'a'], ['n']] 0 =
      [[' ', ' ', 'X', ' ', ' ', 'a'], ['n']] :=
  ⟨rfl, by decide, by
    have h := (toggle_task_state_frame [[' ', ' ', '•', ' ', ' ', 'a'], ['n']] 0
      [' ', ' ', '•', ' ', ' ', 'a'] rfl).1 (by decide)
    exact h.trans (by decide)⟩

/-! ## Settings-validation and restore-ordering lemmas -/

/-- When the membership test does not raise and no recognized string theme name
is present, the theme fields are left alone. -/
theorem applySavedTheme_id (o : Option Json) (st st1 : SettingsState)
    (hok : applySavedTheme o st = Except.ok st1)
    (h : ∀ s, o = some (Json.str s) → THEMES.lookup s = none) :
    st1 = st := by
  match o with
  | none =>
    simp only [applySavedTheme, Except.ok.injEq] at hok
    exact hok.symm
  | some (Json.str s) =>
    have hnone := h s rfl
    simp only [applySavedTheme, hnone, Except.ok.injEq] at hok
    exact hok.symm
  | some Json.null | some (Json.bool _) | some (Json.int _) | some Json.float =>
    simp only [applySavedTheme, Except.ok.injEq] at hok
    exact hok.symm
  | some (Json.arr _) | some (Json.obj _) =>
    simp only [applySavedTheme] at hok
    exact absurd hok (by simp)

theorem isIntGreater200_of (o : Option Json) (hI : pyIsInt o = true)
    (hG : 200 < pyToInt o) : isIntGreater200 o = true := by
  match o with
  | some (Json.int n) => simpa [isIntGreater200, pyToInt] using hG
  | some (Json.bool b) =>
    exfalso
    have hle : pyToInt (some (Json.bool b)) ≤ 1 := by cases b <;> simp [pyToInt]
    omega
  | none | some Json.null | some Json.float | some (Json.str _)
  | some (Json.arr _) | some (Json.obj _) => simp [pyIsInt] at hI

/-- The geometry guard of lines 50–54 is false whenever width or height is not
an integer above 200. -/
theorem geom_cond_false (wvs : List (String × Json))
    (h : isIntGreater200 (wvs.lookup "width") = false ∨
         isIntGreater200 (wvs.lookup "height") = false) :
    (pyIsInt (wvs.lookup "width") && pyIsInt (wvs.lookup "height")
      && decide (200 < pyToInt (wvs.lookup "width"))
      && decide (200 < pyToInt (wvs.lookup "height"))) = false := by
  cases hb : (pyIsInt (wvs.lookup "width") && pyIsInt (wvs.lookup "height")
      && decide (200 < pyToInt (wvs.lookup "width"))
      && decide (200 < pyToInt (wvs.lookup "height"))) with
  | false => rfl
  | true =>
    exfalso
    rw [Bool.and_eq_true, Bool.and_eq_true, Bool.and_eq_true] at hb
    obtain ⟨⟨⟨hwI, hhI⟩, hwG⟩, hhG⟩ := hb
    rw [decide_eq_true_eq] at hwG hhG
    rcases h with h | h
    · rw [isIntGreater200_of _ hwI hwG] at h
      simp at h
    · rw [isIntGreater200_of _ hhI hhG] at h
      simp at h

theorem geom_actions_nil (wvs : List (String × Json))
    (h : isIntGreater200 (wvs.lookup "width") = false ∨
         isIntGreater200 (wvs.lookup "height") = false) :
    geom_actions wvs = [] := by
  unfold geom_actions
  rw [geom_cond_false wvs h]
  simp

theorem geom_actions_only_geometry (wvs : List (String × Json)) :
    ∀ a ∈ geom_actions wvs, isGeomAct a = true := by
  intro a ha
  unfold geom_actions at ha
  split at ha
  · split at ha
    · simp at ha
      subst ha
      rfl
    · simp at ha
      subst ha
      rfl
  · simp at ha

theorem state_actions_cases (wvs : List (String × Json)) :
    ∀ a ∈ state_actions wvs, a = WAction.fullscreen ∨ a = WAction.zoomed := by
  intro a ha
  unfold state_actions at ha
  split at ha
  · simp at ha
    exact Or.inl ha
  · split at ha
    · simp at ha
      exact Or.inr ha
    · simp at ha

theorem state_actions_only_state (wvs : List (String × Json)) :
    ∀ a ∈ state_actions wvs, isStateAct a = true := by
  intro a ha
  rcases state_actions_cases wvs a ha with rfl | rfl <;> rfl

theorem not_geom_and_state (a : WAction) (h1 : isGeomAct a = true)
    (h2 : isStateAct a = true) : False := by
  cases a <;> simp_all [isGeomAct, isStateAct]

theorem fullscreen_mem_state (wvs : List (String × Json))
    (hmem : WAction.fullscreen ∈ state_actions wvs) :
    pyBoolTrue (wvs.lookup "fullscreen") = true := by
  unfold state_actions at hmem
  split at hmem
  · next hc => exact hc
  · split at hmem
    · simp at hmem
    · simp at hmem

theorem zoomed_mem_state (wvs : List (String × Json))
    (hmem : WAction.zoomed ∈ state_actions wvs) :
    pyBoolTrue (wvs.lookup "zoomed") = true := by
  unfold state_actions at hmem
  split at hmem
  · simp at hmem
  · split at hmem
    · next hc => exact hc
    · simp at hmem

theorem pyBoolTrue_eq_false (o : Option Json) (h : isBoolJson o = false) :
    pyBoolTrue o = false := by
  match o with
  | none => rfl
  | some (Json.bool b) => simp [isBoolJson] at h
  | some Json.null | some (Json.int _) | some Json.float | some (Json.str _)
  | some (Json.arr _) | some (Json.obj _) => rfl

/-- Claim C7: field-level validation of a loaded settings document — an
unrecognized theme name falls back to the default theme; a window object whose
width or height is not an integer above 200 yields no geometry call; a
fullscreen or zoomed flag that is not a boolean is treated as false (the
corresponding state call does not happen). -/
theorem settings_field_validation (kvs wvs : List (String × Json))
    (st : SettingsState) (acts : List WAction)
    (hload : load_settings (SettingsFile.json (Json.obj kvs)) initialSettingsState =
      Except.ok st)
    (hwin : savedWindow st = Json.obj wvs)
    (hacts : restore_window (savedWindow st) = Except.ok acts) :
    ((∀ s, kvs.lookup "theme_name" = some (Json.str s) → THEMES.lookup s = none) →
        st.theme_name = DEFAULT_THEME_NAME ∧ st.colors = initialSettingsState.colors) ∧
    ((isIntGreater200 (wvs.lookup "width") = false ∨
      isIntGreater200 (wvs.lookup "height") = false) →
        ∀ gw gh gp, WAction.geometry gw gh gp ∉ acts) ∧
    (isBoolJson (wvs.lookup "fullscreen") = false → WAction.fullscreen ∉ acts) ∧
    (isBoolJson (wvs.lookup "zoomed") = false → WAction.zoomed ∉ acts) := by
  have hacts2 : geom_actions wvs ++ state_actions wvs = acts := by
    rw [hwin] at hacts
    simp only [restore_window] at hacts
    injection hacts
  refine ⟨?_, ?_, ?_, ?_⟩
  · intro hth
    cases hA : applySavedTheme (kvs.lookup "theme_name") initialSettingsState with
    | error e =>
      exfalso
      have hL : load_settings (SettingsFile.json (Json.obj kvs)) initialSettingsState =
          Except.error e := by
        simp only [load_settings, jsonGet]
        rw [hA]
      rw [hL] at hload
      exact Except.noConfusion hload
    | ok st1 =>
      have hL : load_settings (SettingsFile.json (Json.obj kvs)) initialSettingsState =
          Except.ok (mergeSettingsDict (Json.obj kvs) st1) := by
        simp only [load_settings, jsonGet]
        rw [hA]
      rw [hL] at hload
      injection hload with h3
      subst h3
      rw [applySavedTheme_id _ _ _ hA hth]
      exact ⟨rfl, rfl⟩
  · intro h2 gw gh gp hmem
    rw [← hacts2] at hmem
    rcases List.mem_append.mp hmem with hg | hs
    · rw [geom_actions_nil wvs h2] at hg
      simp at hg
    · have hst := state_actions_only_state wvs _ hs
      simp [isStateAct] at hst
  · intro hf hmem
    rw [← hacts2] at hmem
    rcases List.mem_append.mp hmem with hg | hs
    · have hga := geom_actions_only_geometry wvs _ hg
      simp [isGeomAct] at hga
    · have := fullscreen_mem_state wvs hs
      rw [pyBoolTrue_eq_false _ hf] at this
      simp at this
  · intro hz hmem
    rw [← hacts2] at hmem
    rcases List.mem_append.mp hmem with hg | hs
    · have hga := geom_actions_only_geometry wvs _ hg
      simp [isGeomAct] at hga
    · have := zoomed_mem_state wvs hs
      rw [pyBoolTrue_eq_false _ hz] at this
      simp at this

/-- Witness for C7 on the concrete document
`{"theme_name": "Nonexistent", "window": {"width": 50, "height": 500,
"fullscreen": 1, "zoomed": "yes"}}`. -/
theorem settings_field_validation_witness :
    load_settings (SettingsFile.json (Json.obj demoSettingsDoc)) initialSettingsState =
      Except.ok demoLoadedState ∧
    savedWindow demoLoadedState = Json.obj demoWindowDoc ∧
    restore_window (savedWindow demoLoadedState) = Except.ok [] ∧
    demoLoadedState.theme_name = DEFAULT_THEME_NAME ∧
    WAction.fullscreen ∉ ([] : List WAction) := by
  have h := settings_field_validation demoSettingsDoc demoWindowDoc demoLoadedState []
    rfl rfl rfl
  refine ⟨rfl, rfl, rfl, ?_, ?_⟩
  · refine (h.1 ?_).1
    intro s hs
    have hv : demoSettingsDoc.lookup "theme_name" = some (Json.str "Nonexistent") := rfl
    rw [hv] at hs
    injection hs with h1
    injection h1 with h2
    subst h2
    rfl
  · exact h.2.2.1 rfl

/-- Claim C8: during startup restore, every geometry call comes before every
fullscreen/zoomed call, and when the saved fullscreen flag is boolean `true`
(resp. fullscreen absent/false and zoomed boolean `true`) the very last action
is the fullscreen (resp. zoomed) call — so the mode wins over the raw
geometry. -/
theorem restore_ordering (wvs : List (String × Json)) (acts : List WAction)
    (hacts : restore_window (Json.obj wvs) = Except.ok acts) :
    (∀ (i j : Nat) (a b : WAction), acts[i]? = some a → acts[j]? = some b →
        isGeomAct a = true → isStateAct b = true → i < j) ∧
    (pyBoolTrue (wvs.lookup "fullscreen") = true →
        acts.getLast? = some WAction.fullscreen) ∧
    (pyBoolTrue (wvs.lookup "fullscreen") = false →
      pyBoolTrue (wvs.lookup "zoomed") = true →
        acts.getLast? = some WAction.zoomed) := by
  have hacts2 : geom_actions wvs ++ state_actions wvs = acts := by
    simp only [restore_window] at hacts
    injection hacts
  subst hacts2
  refine ⟨?_, ?_, ?_⟩
  · intro i j a b hi hj hga hsb
    have hjge : (geom_actions wvs).length ≤ j := by
      by_contra hlt
      push_neg at hlt
      rw [List.getElem?_append, if_pos hlt] at hj
      have hbmem : b ∈ geom_actions wvs := List.getElem?_mem hj
      exact not_geom_and_state b (geom_actions_only_geometry wvs b hbmem) hsb
    have hilt : i < (geom_actions wvs).length := by
      by_contra hge
      push_neg at hge
      rw [List.getElem?_append_right hge] at hi
      have hamem : a ∈ state_actions wvs := List.getElem?_mem hi
      exact not_geom_and_state a hga (state_actions_only_state wvs a hamem)
    omega
  · intro hf
    have hs : state_actions wvs = [WAction.fullscreen] := by
      unfold state_actions
      rw [if_pos hf]
    rw [hs]
    exact List.getLast?_concat _
  · intro hf hz
    have hs : state_actions wvs = [WAction.zoomed] := by
      unfold state_actions
      rw [if_neg (by simp [hf]), if_pos hz]
    rw [hs]
    exact List.getLast?_concat _

/-- Witness for C8 on a window object with a full geometry and
`fullscreen: true`: the action list is the geometry call followed by the
fullscreen call, whose position is last. -/
theorem restore_ordering_witness :
    restore_window (Json.obj demoFsWindowDoc) =
      Except.ok [WAction.geometry 800 600 (some (10, 20)), WAction.fullscreen] ∧
    pyBoolTrue (demoFsWindowDoc.lookup "fullscreen") = true ∧
    ([WAction.geometry 800 600 (some (10, 20)), WAction.fullscreen] :
        List WAction).getLast? = some WAction.fullscreen :=
  ⟨rfl, rfl,
    (restore_ordering demoFsWindowDoc
      [WAction.geometry 800 600 (some (10, 20)), WAction.fullscreen] rfl).2.1 rfl⟩

/-- Sanity check of the `TypeError` path: a dict document whose `theme_name`
value is a JSON array makes `saved_theme in THEMES` raise an uncaught
`TypeError` (unhashable type), which `load_settings` propagates. -/
theorem load_settings_raises_on_unhashable_theme :
    load_settings (SettingsFile.json (Json.obj [("theme_name", Json.arr [])]))
      initialSettingsState = Except.error PyExc.typeError :=
  rfl
